import Mathlib

/-!
Verification of the stargate gateway shell (src/stargate/src/main.rs).

The development shallowly embeds the gateway's startup sequence, request
handler, observability composition, CORS configuration and bind address,
and proves the spec's claims about them.  External collaborators that live
outside src/ (the apollo-stargate-lib types, the filesystem, the tracing
and jaeger runtimes) are represented either by parameters, by success
flags in a `World` record, or by definitions explicitly marked as
modelled from the spec.
-/

namespace StargateGateway

/-! ## JSON values and the request/response data model -/

/-- A JSON value, used for request variables and response bodies. -/
inductive Json where
  | null
  | bool (b : Bool)
  | num (n : Int)
  | str (s : String)
  | arr (elems : List Json)
  | obj (fields : List (String × Json))

/-- Modelled from the spec: the decoded query-language request payload
(query text plus optional operation name and variables).  The concrete
`GraphQLRequest` type is declared in `apollo-stargate-lib`, outside src/. -/
structure GraphQLRequest where
  query : String
  operationName : Option String := none
  vars : Option Json := none

/-- The per-request context: the source wraps the decoded payload as
`RequestContext { graphql_request: ql_request }`.  The struct itself is
declared in `apollo-stargate-lib`, outside src/. -/
structure RequestContext where
  graphql_request : GraphQLRequest

/-- Modelled from the spec: the engine's result object, opaque to the
gateway except that `HttpResponse::Ok().json(result)` serializes it. -/
structure QueryResult where
  json : Json

/-- Modelled from the spec: the ExecutionError taxonomy of section 7
(malformed-request, validation-error, execution-error, timeout).  The
engine's error type lives in `apollo-stargate-lib`, outside src/. -/
inductive ExecutionError where
  | malformedRequest
  | validationError
  | executionError
  | timeout

/-- The result of `Stargate::execute_query`. -/
inductive ExecResult where
  | ok (result : QueryResult)
  | err (e : ExecutionError)

/-- What one invocation of the `index` handler produces: either an HTTP
response, or a panic of the handling task (Rust `todo!` / `expect`). -/
inductive HandlerOutcome where
  | response (status : Nat) (body : Json)
  | panicked (msg : String)

/-- The `index` handler from the source: wrap the decoded payload into a
`RequestContext`, call `execute_query`, and on success reply `200 OK` with
the JSON serialization of the result.  The `Err` branch of the source is
`todo!("handle error cases when executing query")`, which panics with the
message recorded here.  The engine call is passed in as a function, since
the engine is an external collaborator. -/
def index (request : GraphQLRequest) (execute_query : RequestContext → ExecResult) :
    HandlerOutcome :=
  let context : RequestContext := { graphql_request := request }
  match execute_query context with
  | .ok result => .response 200 result.json
  | .err _ => .panicked "not yet implemented: handle error cases when executing query"

/-- What the server as a whole sends back for one POST to `/`. -/
inductive ServerReply where
  | jsonBody (status : Nat) (body : Json)
  | plainBody (status : Nat) (text : String)
  | workerCrashed (msg : String)

/-- Modelled from the spec: the reply produced when the `web::Json`
extractor fails to decode the request body.  The route takes
`web::Json<GraphQLRequest>` and the App installs no custom JSON error
handler, so the framework default applies: a `400 Bad Request` whose body
is the deserialization error text, not a JSON error payload.  The spec
records that the 4xx-with-JSON-error-payload scenario is "currently unmet
by the visible design". -/
def defaultJsonExtractorReply (err : String) : ServerReply :=
  .plainBody 400 err

/-- The server's handling of one POST body: the JSON extractor (external
serde decoding, passed as a function) runs first; only on success is the
`index` handler invoked. -/
def serve (decode : String → Option GraphQLRequest)
    (execute_query : RequestContext → ExecResult) (body : String) : ServerReply :=
  match decode body with
  | none => defaultJsonExtractorReply "Json deserialize error"
  | some req =>
    match index req execute_query with
    | .response s b => .jsonBody s b
    | .panicked m => .workerCrashed m

/-! ## Observability pipeline -/

/-- Trace sampling policies of the opentelemetry SDK. -/
inductive Sampler where
  | alwaysOn
  | alwaysOff
  | probabilistic
deriving DecidableEq

/-- The jaeger exporter configuration built in `init_observability`. -/
structure Exporter where
  collectorEndpoint : String
  serviceName : String
  tags : List (String × String)
deriving DecidableEq

/-- The trace provider: an exporter plus a default sampler. -/
structure Provider where
  exporter : Exporter
  defaultSampler : Sampler
deriving DecidableEq

/-- The layers composed into the process-wide subscriber. -/
inductive Layer where
  | otel (sampler : Sampler)
  | envFilter (directive : String)
  | jsonStorage
  | bunyanFormatting (serviceName : String)
  | fmtHuman
deriving DecidableEq

/-- Whether a layer is a formatting layer (writes rendered events). -/
def Layer.isFormatting : Layer → Bool
  | .bunyanFormatting _ => true
  | .fmtHuman => true
  | _ => false

/-- Whether a layer renders structured/JSON-oriented output. -/
def Layer.isJsonOriented : Layer → Bool
  | .bunyanFormatting _ => true
  | _ => false

/-! ## Events, the external world, and the startup sequence -/

/-- Observable events of a run of the gateway process, in program order. -/
inductive Event where
  | emitTrace (msg : String)
  | subscriberInstalled
  | providerRegistered
  | obsInitReturned
  | manifestLoaded
  | manifestWrite
  | manifestRead
  | engineBuilt
  | socketBound
  | handlerInvoked (n : Nat)
deriving DecidableEq

/-- The external effects that startup depends on: whether each fallible
external call succeeds, the process environment's severity filter, and the
filesystem contents (errors carry the io diagnostic text). -/
structure World where
  logTracerInitOk : Bool
  jaegerInitOk : Bool
  setGlobalDefaultOk : Bool
  envSeverityFilter : Option String
  fileContents : String → Except String String
  bindOk : Bool

/-- Modelled from the spec: the startup configuration
(`apollo_stargate_lib::common::Opt`, outside src/): a listening port, a
manifest path, and the structured-logging toggle. -/
structure Opt where
  port : Nat
  manifest : String
  structured_logging : Bool

/-- How `init_observability` fails: a panic (the two `expect` calls), or
the jaeger exporter build error propagated with `?`. -/
inductive ObsError where
  | panicked (msg : String)
  | exporterBuildFailed

/-- The `init_observability` function from the source, as a trace of events
plus either a failure or the composed provider and subscriber layers.
Steps, in source order: `LogTracer::init().expect(..)`; a `debug!` event;
the jaeger exporter build (`?` on failure); another `debug!` event; the
provider with `Sampler::AlwaysOn`; the subscriber = otel layer + env
filter defaulting to "info"; one formatting branch on `structured_logging`;
`set_global_default(..).expect(..)`; a final `debug!`; `set_provider`. -/
def init_observability (w : World) (structured_logging : Bool) :
    List Event × Except ObsError (Provider × List Layer) :=
  if w.logTracerInitOk then
    let ev1 := Event.emitTrace "initializing jaeger trace exporter"
    if w.jaegerInitOk then
      let jaeger_exporter : Exporter :=
        { collectorEndpoint := "http://localhost:14268/api/traces"
          serviceName := "stargate"
          tags := [("exporter", "jaeger")] }
      let ev2 := Event.emitTrace "initializing trace provider"
      let provider : Provider := { exporter := jaeger_exporter, defaultSampler := .alwaysOn }
      let subscriberBase : List Layer :=
        [ .otel provider.defaultSampler,
          .envFilter (w.envSeverityFilter.getD "info") ]
      let subscriberFull : List Layer :=
        if structured_logging then
          subscriberBase ++ [.jsonStorage, .bunyanFormatting "stargate"]
        else
          subscriberBase ++ [.fmtHuman]
      if w.setGlobalDefaultOk then
        ([ev1, ev2, .subscriberInstalled,
          .emitTrace "setting global trace provider", .providerRegistered],
         .ok (provider, subscriberFull))
      else
        ([ev1, ev2], .error (.panicked "Failed to set subscriber"))
    else
      ([ev1], .error .exporterBuildFailed)
  else
    ([], .error (.panicked "Failed to set logger"))

/-- How the process ends up after `main` runs its startup sequence. -/
inductive Outcome where
  | running
  | panicked (msg : String)
  | exitedWithError (diag : String)
deriving DecidableEq

/-- The `main` function from the source as a trace of events plus an
outcome: `init_observability(..).expect("failed to initialize tracer.")`,
a `debug!`, `fs::read_to_string(&opt.manifest)?` followed by the write to
the `MANIFEST` global, `Stargate::new(&MANIFEST)` (which reads the global),
and finally `.bind(format!("127.0.0.1:{}", opt.port))?` and the accept
loop. -/
def runMain (w : World) (opt : Opt) : List Event × Outcome :=
  match init_observability w opt.structured_logging with
  | (evs, .error (.panicked msg)) => (evs, .panicked msg)
  | (evs, .error .exporterBuildFailed) => (evs, .panicked "failed to initialize tracer.")
  | (evs, .ok _) =>
    let evs2 := evs ++ [Event.obsInitReturned, Event.emitTrace "Initializing stargate instance"]
    match w.fileContents opt.manifest with
    | .error e => (evs2, .exitedWithError e)
    | .ok _text =>
      let evs3 := evs2 ++ [Event.manifestLoaded, Event.manifestWrite,
                           Event.manifestRead, Event.engineBuilt]
      if w.bindOk then
        (evs3 ++ [Event.socketBound], .running)
      else
        (evs3, .exitedWithError "could not bind listening socket")

/-- The events produced by serving a list of requests once the server is
running: each request's handler reads the manifest through the engine's
zero-copy slices and runs to completion. -/
def handlerTrace : List Nat → List Event
  | [] => []
  | n :: rest => Event.manifestRead :: Event.handlerInvoked n :: handlerTrace rest

/-- A whole run: startup followed, only if the socket was bound and the
accept loop entered, by the handling of the given requests. -/
def runServer (w : World) (opt : Opt) (reqs : List Nat) : List Event × Outcome :=
  match runMain w opt with
  | (evs, .running) => (evs ++ handlerTrace reqs, .running)
  | other => other

/-! ## Trace measurements -/

/-- How many writes to the `MANIFEST` global a trace performs. -/
def countWrites : List Event → Nat
  | [] => 0
  | .manifestWrite :: t => countWrites t + 1
  | _ :: t => countWrites t

/-- How many times a global subscriber is installed in a trace. -/
def countInstalls : List Event → Nat
  | [] => 0
  | .subscriberInstalled :: t => countInstalls t + 1
  | _ :: t => countInstalls t

/-- True when no read of the `MANIFEST` global happens before its first
write in the trace. -/
def noReadBeforeWrite : List Event → Bool
  | [] => true
  | .manifestWrite :: _ => true
  | .manifestRead :: _ => false
  | _ :: t => noReadBeforeWrite t

/-- True when the `MANIFEST` global is not written again after the engine
has been constructed from it. -/
def noWriteAfterBuild : List Event → Bool
  | [] => true
  | .engineBuilt :: t => countWrites t == 0
  | _ :: t => noWriteAfterBuild t

/-- The prefix of a trace that happens strictly before the global
subscriber is installed. -/
def beforeInstall (t : List Event) : List Event :=
  t.takeWhile (fun e => e != Event.subscriberInstalled)

/-! ## The MANIFEST global cell -/

/-- Kinds of process-wide cell a global can be declared as. -/
inductive GlobalCellKind where
  | staticMut
  | writeOnceCell
deriving DecidableEq

/-- The manifest global as declared in the source:
`static mut MANIFEST: String = String::new();` — a freely mutable global
(`static mut`), mutable by any unsafe code at any time, not a
single-writer-then-read-only cell type. -/
def MANIFEST : GlobalCellKind := .staticMut

/-! ## CORS configuration and bind address -/

/-- The CORS policy built in `main` with `Cors::new()`. -/
structure Cors where
  allowedMethods : List String
  allowedOrigins : List String
  supportsCredentials : Bool

/-- The concrete CORS configuration wrapped around the app's only route:
methods GET, POST, OPTIONS; allowed origin
`https://studio.apollographql.com`; credentials supported. -/
def corsPolicy : Cors :=
  { allowedMethods := ["GET", "POST", "OPTIONS"]
    allowedOrigins := ["https://studio.apollographql.com"]
    supportsCredentials := true }

/-- Whether a request origin is in the configured origin whitelist. -/
def originAllowed : List String → String → Bool
  | [], _ => false
  | o :: rest, origin => (origin == o) || originAllowed rest origin

/-- Whether an origin receives credentialed CORS approval: it must be
whitelisted and the policy must support credentials. -/
def Cors.grantsCredentialedApproval (c : Cors) (origin : String) : Bool :=
  originAllowed c.allowedOrigins origin && c.supportsCredentials

/-- The bind address from the source: `format!("127.0.0.1:{}", opt.port)` —
the host is the fixed loopback literal, only the port comes from the
configuration. -/
def bindAddress (opt : Opt) : String :=
  "127.0.0.1:" ++ toString opt.port

/-- The host component of an address string: everything before the first
colon. -/
def hostPart (s : String) : String :=
  String.mk (s.data.takeWhile (fun c => c != ':'))

/-! ## Scenario lemmas: the trace of each startup outcome -/

/-- The event trace of a fully successful `init_observability`. -/
def obsOkTrace : List Event :=
  [Event.emitTrace "initializing jaeger trace exporter",
   Event.emitTrace "initializing trace provider",
   Event.subscriberInstalled,
   Event.emitTrace "setting global trace provider",
   Event.providerRegistered]

/-- The trace up to (and including) main's debug line before loading the
manifest. -/
def preManifestTrace : List Event :=
  obsOkTrace ++ [Event.obsInitReturned, Event.emitTrace "Initializing stargate instance"]

/-- The trace up to engine construction, before binding the socket. -/
def preBindTrace : List Event :=
  preManifestTrace ++ [Event.manifestLoaded, Event.manifestWrite,
                       Event.manifestRead, Event.engineBuilt]

/-- The complete startup trace of a successful boot. -/
def fullStartupTrace : List Event :=
  preBindTrace ++ [Event.socketBound]

theorem runMain_no_logger (w : World) (opt : Opt) (hl : w.logTracerInitOk = false) :
    runMain w opt = ([], .panicked "Failed to set logger") := by
  simp [runMain, init_observability, hl]

theorem runMain_no_jaeger (w : World) (opt : Opt)
    (hl : w.logTracerInitOk = true) (hj : w.jaegerInitOk = false) :
    runMain w opt = ([Event.emitTrace "initializing jaeger trace exporter"],
                     .panicked "failed to initialize tracer.") := by
  simp [runMain, init_observability, hl, hj]

theorem runMain_no_subscriber (w : World) (opt : Opt)
    (hl : w.logTracerInitOk = true) (hj : w.jaegerInitOk = true)
    (hs : w.setGlobalDefaultOk = false) :
    runMain w opt = ([Event.emitTrace "initializing jaeger trace exporter",
                      Event.emitTrace "initializing trace provider"],
                     .panicked "Failed to set subscriber") := by
  simp [runMain, init_observability, hl, hj, hs]

theorem runMain_no_manifest (w : World) (opt : Opt) (e : String)
    (hl : w.logTracerInitOk = true) (hj : w.jaegerInitOk = true)
    (hs : w.setGlobalDefaultOk = true)
    (hf : w.fileContents opt.manifest = .error e) :
    runMain w opt = (preManifestTrace, .exitedWithError e) := by
  simp [runMain, init_observability, hl, hj, hs, hf, preManifestTrace, obsOkTrace]

theorem runMain_no_bind (w : World) (opt : Opt) (text : String)
    (hl : w.logTracerInitOk = true) (hj : w.jaegerInitOk = true)
    (hs : w.setGlobalDefaultOk = true)
    (hf : w.fileContents opt.manifest = .ok text) (hb : w.bindOk = false) :
    runMain w opt = (preBindTrace, .exitedWithError "could not bind listening socket") := by
  simp [runMain, init_observability, hl, hj, hs, hf, hb,
        preBindTrace, preManifestTrace, obsOkTrace]

theorem runMain_all_ok (w : World) (opt : Opt) (text : String)
    (hl : w.logTracerInitOk = true) (hj : w.jaegerInitOk = true)
    (hs : w.setGlobalDefaultOk = true)
    (hf : w.fileContents opt.manifest = .ok text) (hb : w.bindOk = true) :
    runMain w opt = (fullStartupTrace, .running) := by
  simp [runMain, init_observability, hl, hj, hs, hf, hb,
        fullStartupTrace, preBindTrace, preManifestTrace, obsOkTrace]

theorem runServer_all_ok (w : World) (opt : Opt) (reqs : List Nat) (text : String)
    (hl : w.logTracerInitOk = true) (hj : w.jaegerInitOk = true)
    (hs : w.setGlobalDefaultOk = true)
    (hf : w.fileContents opt.manifest = .ok text) (hb : w.bindOk = true) :
    runServer w opt reqs = (fullStartupTrace ++ handlerTrace reqs, .running) := by
  simp [runServer, runMain_all_ok w opt text hl hj hs hf hb]

/-- Whenever the whole run reaches the accept loop, every fallible startup
step in fact succeeded. -/
theorem running_implies_all_ok (w : World) (opt : Opt) (reqs : List Nat)
    (h : (runServer w opt reqs).2 = .running) :
    w.logTracerInitOk = true ∧ w.jaegerInitOk = true ∧ w.setGlobalDefaultOk = true
    ∧ (∃ text, w.fileContents opt.manifest = .ok text) ∧ w.bindOk = true := by
  cases hl : w.logTracerInitOk with
  | false => rw [runServer, runMain_no_logger w opt hl] at h; simp at h
  | true =>
  cases hj : w.jaegerInitOk with
  | false => rw [runServer, runMain_no_jaeger w opt hl hj] at h; simp at h
  | true =>
  cases hs : w.setGlobalDefaultOk with
  | false => rw [runServer, runMain_no_subscriber w opt hl hj hs] at h; simp at h
  | true =>
  cases hf : w.fileContents opt.manifest with
  | error e => rw [runServer, runMain_no_manifest w opt e hl hj hs hf] at h; simp at h
  | ok text =>
  cases hb : w.bindOk with
  | false => rw [runServer, runMain_no_bind w opt text hl hj hs hf hb] at h; simp at h
  | true => exact ⟨rfl, rfl, rfl, ⟨text, rfl⟩, rfl⟩

/-! ## Further helper lemmas and concrete fixtures -/

theorem countWrites_append (l1 l2 : List Event) :
    countWrites (l1 ++ l2) = countWrites l1 + countWrites l2 := by
  induction l1 with
  | nil => simp [countWrites]
  | cons e t ih =>
    cases e <;> simp [countWrites, ih]
    omega

theorem countWrites_handlerTrace (reqs : List Nat) :
    countWrites (handlerTrace reqs) = 0 := by
  induction reqs with
  | nil => rfl
  | cons n rest ih => simp [handlerTrace, countWrites, ih]

/-- A world in which every fallible external startup call succeeds. -/
def wOk : World :=
  { logTracerInitOk := true
    jaegerInitOk := true
    setGlobalDefaultOk := true
    envSeverityFilter := none
    fileContents := fun _ => Except.ok "schema text"
    bindOk := true }

/-- The all-success world except that installing the log bridge fails. -/
def wNoLogger : World := { wOk with logTracerInitOk := false }

/-- A concrete startup configuration. -/
def optDefault : Opt :=
  { port := 8080, manifest := "supergraph.graphql", structured_logging := false }

/-- The provider built by a successful `init_observability`. -/
def provOk : Provider :=
  { exporter :=
      { collectorEndpoint := "http://localhost:14268/api/traces"
        serviceName := "stargate"
        tags := [("exporter", "jaeger")] }
    defaultSampler := .alwaysOn }

/-- The subscriber layers composed when structured logging is on and no
environment severity filter is set. -/
def layersStructured : List Layer :=
  [.otel .alwaysOn, .envFilter "info", .jsonStorage, .bunyanFormatting "stargate"]

/-- A sample decoded request. -/
def sampleRequest : GraphQLRequest := { query := "query hello" }

/-- A sample engine result. -/
def sampleResult : QueryResult :=
  { json := Json.obj [("data", Json.obj [("hello", Json.null)])] }

/-! ## Claim theorems -/

/-- Claim C1 (code bug): the claim says every failing `EngineHandle.execute`
call is mapped by the dispatcher to a 4xx (malformed-request,
validation-error) or 5xx (execution-error, timeout) JSON response and never
terminates the worker.  The source's error branch is
`todo!("handle error cases when executing query")`: for every error the
handler panics the worker task and never produces an HTTP response. -/
theorem dispatcher_err_branch_panics :
    (∀ (e : ExecutionError) (request : GraphQLRequest),
      index request (fun _ => ExecResult.err e)
        = HandlerOutcome.panicked "not yet implemented: handle error cases when executing query")
    ∧ (∀ (s : Nat) (b : Json),
      index sampleRequest (fun _ => ExecResult.err ExecutionError.validationError)
        ≠ HandlerOutcome.response s b) :=
  ⟨fun _ _ => rfl, fun _ _ h => HandlerOutcome.noConfusion h⟩

/-- Claim C2: in every run that reaches the accept loop, observability
initialization, manifest loading, and engine construction complete
successfully in that order before the socket is bound, and no handler
invocation occurs during startup — all handler activity comes strictly
after the complete startup trace. -/
theorem startup_ordering_invariant (w : World) (opt : Opt) (reqs : List Nat)
    (h : (runServer w opt reqs).2 = Outcome.running) :
    [Event.obsInitReturned, Event.manifestLoaded, Event.engineBuilt,
      Event.socketBound].Sublist (runMain w opt).1
    ∧ (∀ n, Event.handlerInvoked n ∉ (runMain w opt).1)
    ∧ (runServer w opt reqs).1 = (runMain w opt).1 ++ handlerTrace reqs := by
  obtain ⟨hl, hj, hs, ⟨text, hf⟩, hb⟩ := running_implies_all_ok w opt reqs h
  rw [runMain_all_ok w opt text hl hj hs hf hb,
      runServer_all_ok w opt reqs text hl hj hs hf hb]
  refine ⟨by decide, ?_, rfl⟩
  intro n
  simp [fullStartupTrace, preBindTrace, preManifestTrace, obsOkTrace]

/-- Witness for C2 at a concrete world, configuration and request load. -/
theorem startup_ordering_invariant_witness :
    [Event.obsInitReturned, Event.manifestLoaded, Event.engineBuilt,
      Event.socketBound].Sublist (runMain wOk optDefault).1
    ∧ (∀ n, Event.handlerInvoked n ∉ (runMain wOk optDefault).1)
    ∧ (runServer wOk optDefault [0, 1]).1
        = (runMain wOk optDefault).1 ++ handlerTrace [0, 1] :=
  startup_ordering_invariant wOk optDefault [0, 1] rfl

/-- Claim C3 counterexample: the claim asserts the manifest text is never
exposed as a freely mutable global, but the source declares it
`static mut MANIFEST: String = String::new()` — the freely mutable global
kind of cell, not a single-writer-then-read-only cell type. -/
theorem manifest_declared_static_mut :
    MANIFEST = GlobalCellKind.staticMut
    ∧ MANIFEST ≠ GlobalCellKind.writeOnceCell := by decide

/-- Claim C3 as amended: in every run, the manifest global is written at
most once, no read of it ever precedes its write, and it is never written
again after the engine is constructed from it — even though the cell is
declared freely mutable, the program's single trace maintains the
single-writer-then-read-only discipline. -/
theorem manifest_single_write_then_read_only (w : World) (opt : Opt) (reqs : List Nat) :
    countWrites (runServer w opt reqs).1 ≤ 1
    ∧ noReadBeforeWrite (runServer w opt reqs).1 = true
    ∧ noWriteAfterBuild (runServer w opt reqs).1 = true := by
  cases hl : w.logTracerInitOk with
  | false => simp [runServer, runMain_no_logger w opt hl, countWrites,
                   noReadBeforeWrite, noWriteAfterBuild]
  | true =>
  cases hj : w.jaegerInitOk with
  | false => simp [runServer, runMain_no_jaeger w opt hl hj, countWrites,
                   noReadBeforeWrite, noWriteAfterBuild]
  | true =>
  cases hs : w.setGlobalDefaultOk with
  | false => simp [runServer, runMain_no_subscriber w opt hl hj hs, countWrites,
                   noReadBeforeWrite, noWriteAfterBuild]
  | true =>
  cases hf : w.fileContents opt.manifest with
  | error e =>
    have h1 : (runServer w opt reqs).1 = preManifestTrace := by
      simp [runServer, runMain_no_manifest w opt e hl hj hs hf]
    rw [h1]
    exact ⟨by decide, by decide, by decide⟩
  | ok text =>
  cases hb : w.bindOk with
  | false =>
    have h1 : (runServer w opt reqs).1 = preBindTrace := by
      simp [runServer, runMain_no_bind w opt text hl hj hs hf hb]
    rw [h1]
    exact ⟨by decide, by decide, by decide⟩
  | true =>
    rw [runServer_all_ok w opt reqs text hl hj hs hf hb]
    refine ⟨?_, rfl, ?_⟩
    · rw [show ((fullStartupTrace ++ handlerTrace reqs, Outcome.running) :
            List Event × Outcome).1 = fullStartupTrace ++ handlerTrace reqs from rfl,
          countWrites_append, countWrites_handlerTrace]
      decide
    · show noWriteAfterBuild (fullStartupTrace ++ handlerTrace reqs) = true
      rw [show noWriteAfterBuild (fullStartupTrace ++ handlerTrace reqs)
            = (countWrites (handlerTrace reqs) == 0) from rfl,
          countWrites_handlerTrace]
      rfl

/-- Claim C4: whenever the engine call succeeds, the handler wraps the
decoded payload into a `RequestContext`, calls `execute_query` on it, and
replies `200 OK` with the JSON serialization of the engine's result. -/
theorem dispatcher_success_response (request : GraphQLRequest)
    (execute_query : RequestContext → ExecResult) (result : QueryResult)
    (h : execute_query { graphql_request := request } = ExecResult.ok result) :
    index request execute_query = HandlerOutcome.response 200 result.json := by
  simp [index, h]

/-- Witness for C4 at a concrete request and engine result. -/
theorem dispatcher_success_response_witness :
    index sampleRequest (fun _ => ExecResult.ok sampleResult)
      = HandlerOutcome.response 200 sampleResult.json :=
  dispatcher_success_response sampleRequest (fun _ => ExecResult.ok sampleResult)
    sampleResult rfl

/-- Claim C5 (code bug): the claim says a syntactically invalid JSON body
gets a 4xx response with a JSON error payload and no crash.  Posting the
malformed body (a lone opening brace) yields the framework-default
`400` plain-text reply — a 4xx without a crash, but not a JSON error
payload; the spec itself records this scenario as "currently unmet by the
visible design". -/
theorem malformed_body_default_reply :
    serve (fun _ => none) (fun _ => ExecResult.err ExecutionError.executionError) "\x7b"
      = ServerReply.plainBody 400 "Json deserialize error"
    ∧ ∀ (s : Nat) (b : Json),
      serve (fun _ => none) (fun _ => ExecResult.err ExecutionError.executionError) "\x7b"
        ≠ ServerReply.jsonBody s b :=
  ⟨rfl, fun _ _ h => ServerReply.noConfusion h⟩

/-- Claim C6: every startup failure — the log bridge, the jaeger exporter,
installing the subscriber, or reading the manifest — is fatal: the run
never reaches the accept loop, the socket is never bound, and the process
ends panicked or exited with a diagnostic. -/
theorem startup_failure_is_fatal (w : World) (opt : Opt)
    (h : w.logTracerInitOk = false ∨ w.jaegerInitOk = false
      ∨ w.setGlobalDefaultOk = false
      ∨ ∃ e, w.fileContents opt.manifest = Except.error e) :
    (runMain w opt).2 ≠ Outcome.running
    ∧ Event.socketBound ∉ (runMain w opt).1
    ∧ ∃ diag, (runMain w opt).2 = Outcome.panicked diag
        ∨ (runMain w opt).2 = Outcome.exitedWithError diag := by
  cases hl : w.logTracerInitOk with
  | false =>
    rw [runMain_no_logger w opt hl]
    exact ⟨by simp, by simp, "Failed to set logger", Or.inl rfl⟩
  | true =>
  cases hj : w.jaegerInitOk with
  | false =>
    rw [runMain_no_jaeger w opt hl hj]
    exact ⟨by simp, by simp, "failed to initialize tracer.", Or.inl rfl⟩
  | true =>
  cases hs : w.setGlobalDefaultOk with
  | false =>
    rw [runMain_no_subscriber w opt hl hj hs]
    exact ⟨by simp, by simp, "Failed to set subscriber", Or.inl rfl⟩
  | true =>
  rcases h with h | h | h | ⟨e, hf⟩
  · rw [h] at hl; exact absurd hl (by decide)
  · rw [h] at hj; exact absurd hj (by decide)
  · rw [h] at hs; exact absurd hs (by decide)
  · rw [runMain_no_manifest w opt e hl hj hs hf]
    exact ⟨by simp, by show Event.socketBound ∉ preManifestTrace; decide, e, Or.inr rfl⟩

/-- Witness for C6: a world whose log bridge installation fails. -/
theorem startup_failure_is_fatal_witness :
    (runMain wNoLogger optDefault).2 ≠ Outcome.running
    ∧ Event.socketBound ∉ (runMain wNoLogger optDefault).1
    ∧ ∃ diag, (runMain wNoLogger optDefault).2 = Outcome.panicked diag
        ∨ (runMain wNoLogger optDefault).2 = Outcome.exitedWithError diag :=
  startup_failure_is_fatal wNoLogger optDefault (Or.inl rfl)

/-- Claim C7: whenever `init_observability` succeeds, the trace provider
uses the always-sample policy, the subscriber is composed from the
tracing-provider layer and an environment-configurable severity filter
defaulting to "info", it carries exactly one formatting layer —
JSON-oriented (bunyan) when structured logging is on, human-readable
otherwise — and exactly one process-wide subscriber is installed in either
branch. -/
theorem observability_subscriber_composition (w : World) (sl : Bool) (evs : List Event)
    (prov : Provider) (layers : List Layer)
    (h : init_observability w sl = (evs, Except.ok (prov, layers))) :
    prov.defaultSampler = Sampler.alwaysOn
    ∧ (layers.filter Layer.isFormatting).length = 1
    ∧ (sl = true → layers.filter Layer.isFormatting = [Layer.bunyanFormatting "stargate"])
    ∧ (sl = false → layers.filter Layer.isFormatting = [Layer.fmtHuman])
    ∧ (∀ l ∈ layers, l.isFormatting = true → l.isJsonOriented = sl)
    ∧ Layer.otel Sampler.alwaysOn ∈ layers
    ∧ Layer.envFilter (w.envSeverityFilter.getD "info") ∈ layers
    ∧ countInstalls evs = 1 := by
  cases hl : w.logTracerInitOk <;> cases hj : w.jaegerInitOk
    <;> cases hs : w.setGlobalDefaultOk
    <;> simp [init_observability, hl, hj, hs] at h
  obtain ⟨hevs, hprov, hlayers⟩ := h
  subst hevs hprov hlayers
  cases sl <;> simp [Layer.isFormatting, Layer.isJsonOriented, countInstalls]

/-- Witness for C7: the all-success world with structured logging on. -/
theorem observability_subscriber_composition_witness :
    provOk.defaultSampler = Sampler.alwaysOn
    ∧ (layersStructured.filter Layer.isFormatting).length = 1
    ∧ (true = true → layersStructured.filter Layer.isFormatting
        = [Layer.bunyanFormatting "stargate"])
    ∧ (true = false → layersStructured.filter Layer.isFormatting = [Layer.fmtHuman])
    ∧ (∀ l ∈ layersStructured, l.isFormatting = true → l.isJsonOriented = true)
    ∧ Layer.otel Sampler.alwaysOn ∈ layersStructured
    ∧ Layer.envFilter (wOk.envSeverityFilter.getD "info") ∈ layersStructured
    ∧ countInstalls obsOkTrace = 1 :=
  observability_subscriber_composition wOk true obsOkTrace provOk layersStructured rfl

/-- Claim C8 counterexample: the claim says the subscriber is installed
before any trace event is emitted, including during observability
initialization itself; but in the successful initialization trace the
`debug!("initializing jaeger trace exporter")` event is emitted strictly
before the subscriber is installed. -/
theorem emit_before_subscriber_installed :
    Event.subscriberInstalled ∈ (init_observability wOk true).1
    ∧ Event.emitTrace "initializing jaeger trace exporter"
        ∈ beforeInstall (init_observability wOk true).1 := by
  decide

/-- Claim C8 as amended: the subscriber is installed before the manifest is
loaded, before the engine is constructed, before main's own debug event,
and before any handler runs — but not before the two debug events that
`init_observability` itself emits while building the exporter and
provider. -/
theorem subscriber_installed_before_engine (w : World) (opt : Opt) (reqs : List Nat)
    (h : (runServer w opt reqs).2 = Outcome.running) :
    Event.subscriberInstalled ∈ (runServer w opt reqs).1
    ∧ Event.manifestLoaded ∉ beforeInstall (runServer w opt reqs).1
    ∧ Event.engineBuilt ∉ beforeInstall (runServer w opt reqs).1
    ∧ Event.emitTrace "Initializing stargate instance"
        ∉ beforeInstall (runServer w opt reqs).1
    ∧ ∀ n, Event.handlerInvoked n ∉ beforeInstall (runServer w opt reqs).1 := by
  obtain ⟨hl, hj, hs, ⟨text, hf⟩, hb⟩ := running_implies_all_ok w opt reqs h
  rw [runServer_all_ok w opt reqs text hl hj hs hf hb]
  rw [show ((fullStartupTrace ++ handlerTrace reqs, Outcome.running) :
        List Event × Outcome).1 = fullStartupTrace ++ handlerTrace reqs from rfl]
  rw [show beforeInstall (fullStartupTrace ++ handlerTrace reqs)
        = [Event.emitTrace "initializing jaeger trace exporter",
           Event.emitTrace "initializing trace provider"] from rfl]
  refine ⟨List.mem_append_left _ (by decide), by decide, by decide, by decide, ?_⟩
  intro n
  simp

/-- Witness for the amended C8 at a concrete world and request load. -/
theorem subscriber_installed_before_engine_witness :
    Event.subscriberInstalled ∈ (runServer wOk optDefault [0]).1
    ∧ Event.manifestLoaded ∉ beforeInstall (runServer wOk optDefault [0]).1
    ∧ Event.engineBuilt ∉ beforeInstall (runServer wOk optDefault [0]).1
    ∧ Event.emitTrace "Initializing stargate instance"
        ∉ beforeInstall (runServer wOk optDefault [0]).1
    ∧ ∀ n, Event.handlerInvoked n ∉ beforeInstall (runServer wOk optDefault [0]).1 :=
  subscriber_installed_before_engine wOk optDefault [0] rfl

/-- Claim C9: the CORS policy wrapped around the app's single route allows
exactly the methods GET, POST and OPTIONS, supports credentials, whitelists
exactly the origin `https://studio.apollographql.com`, and grants
credentialed approval to an origin precisely when it is that origin. -/
theorem cors_policy_trusted_origin_only :
    corsPolicy.allowedMethods = ["GET", "POST", "OPTIONS"]
    ∧ corsPolicy.supportsCredentials = true
    ∧ corsPolicy.allowedOrigins = ["https://studio.apollographql.com"]
    ∧ ∀ origin, corsPolicy.grantsCredentialedApproval origin
        = (origin == "https://studio.apollographql.com") := by
  refine ⟨rfl, rfl, rfl, fun origin => ?_⟩
  simp [Cors.grantsCredentialedApproval, corsPolicy, originAllowed]

/-- Claim C10: the listening address is always the fixed loopback host
`127.0.0.1`; only the port component comes from the configuration. -/
theorem bind_address_loopback_only (opt : Opt) :
    hostPart (bindAddress opt) = "127.0.0.1"
    ∧ bindAddress opt = "127.0.0.1:" ++ toString opt.port :=
  ⟨rfl, rfl⟩

end StargateGateway
